import Mathlib

/-!
Verification development for the Scope library (scope.hpp): exit-policy state
machines, the storage cell, basic_scope_guard, and unique_resource, embedded
shallowly as executable Lean definitions.  Destruction and the mutating
operations are modelled as pure state transformers that additionally return
the list of action/deleter invocations they perform; each recorded invocation
carries a snapshot of the owning object's state (or policy) at the moment the
call begins, so that claims about disarm-before-invoke ordering are statable.
The in-flight exception probe (detail::uncaught_exception_count, a C `int`)
is modelled as an integer argument supplied at construction and at
destruction time.
-/

namespace Scope

/-- Largest value of the C `int` counter returned by the probe
(std::numeric_limits of int, 32-bit). -/
def intMax : Int := 2 ^ 31 - 1

/-! ## detail::on_exit_policy (scope.hpp lines 185-211) -/

/-- State of detail::on_exit_policy: a single boolean flag. -/
structure on_exit_policy where
  m_should_execute : Bool
deriving DecidableEq

/-- Default constructor: m_should_execute starts true. -/
def on_exit_policy.init : on_exit_policy :=
  { m_should_execute := true }

/-- release() sets m_should_execute to false. -/
def on_exit_policy.release (p : on_exit_policy) : on_exit_policy :=
  { p with m_should_execute := false }

/-- should_execute() returns m_should_execute; the probe is not consulted. -/
def on_exit_policy.should_execute (p : on_exit_policy) (_probe : Int) : Bool :=
  p.m_should_execute

/-! ## detail::on_fail_policy (scope.hpp lines 217-243) -/

/-- State of detail::on_fail_policy: the captured exception-count baseline. -/
structure on_fail_policy where
  m_exception_count : Int
deriving DecidableEq

/-- Constructor: captures the probe reading at construction time. -/
def on_fail_policy.init (probe : Int) : on_fail_policy :=
  { m_exception_count := probe }

/-- release() sets the baseline to the largest representable int. -/
def on_fail_policy.release (p : on_fail_policy) : on_fail_policy :=
  { p with m_exception_count := intMax }

/-- should_execute() returns m_exception_count < probe. -/
def on_fail_policy.should_execute (p : on_fail_policy) (probe : Int) : Bool :=
  decide (p.m_exception_count < probe)

/-! ## detail::on_success_policy (scope.hpp lines 249-276) -/

/-- State of detail::on_success_policy: the captured exception-count
baseline. -/
structure on_success_policy where
  m_exception_count : Int
deriving DecidableEq

/-- Constructor: captures the probe reading at construction time. -/
def on_success_policy.init (probe : Int) : on_success_policy :=
  { m_exception_count := probe }

/-- release() sets the baseline to -1, a count the probe never returns. -/
def on_success_policy.release (p : on_success_policy) : on_success_policy :=
  { p with m_exception_count := -1 }

/-- should_execute() returns m_exception_count == probe. -/
def on_success_policy.should_execute (p : on_success_policy) (probe : Int) : Bool :=
  decide (p.m_exception_count = probe)

/-- Interface shared by the three policy classes, as used by
basic_scope_guard through its ExitPolicy template parameter. -/
class ExitPolicy (P : Type) where
  release : P → P
  should_execute : P → Int → Bool

instance instExitPolicyOnExit : ExitPolicy on_exit_policy :=
  { release := on_exit_policy.release
    should_execute := on_exit_policy.should_execute }

instance instExitPolicyOnFail : ExitPolicy on_fail_policy :=
  { release := on_fail_policy.release
    should_execute := on_fail_policy.should_execute }

instance instExitPolicyOnSuccess : ExitPolicy on_success_policy :=
  { release := on_success_policy.release
    should_execute := on_success_policy.should_execute }

/-! ## detail::storage (scope.hpp lines 300-346)

The value specialisation storage of T holds one value m_value.  The rvalue
overload of set does not compile when instantiated (it calls
move_if_noexcept_assignable, whose return type is spelled std::conditional
without ::type); the lvalue overload, plain copy-assignment, is the one
modelled here.  Over this value model ref, cref and rref all yield
m_value. -/

/-- Value cell of detail::storage holding one payload. -/
structure storage (T : Type) where
  m_value : T
deriving DecidableEq

/-- ref()/cref()/rref(): access the stored value. -/
def storage.ref {T : Type} (s : storage T) : T :=
  s.m_value

/-- set(t): replace the stored value by assignment. -/
def storage.set {T : Type} (s : storage T) (t : T) : storage T :=
  { s with m_value := t }

/-! ## detail::basic_scope_guard (scope.hpp lines 393-443) -/

/-- State of detail::basic_scope_guard: the ExitPolicy base subobject and
the stored function cell. -/
structure basic_scope_guard (P : Type) (A : Type) where
  policy : P
  m_function : storage A
deriving DecidableEq

/-- Record of one action invocation performed by the guard destructor:
the policy subobject as it stands at the moment the call begins, and the
action invoked. -/
structure GuardCall (P : Type) (A : Type) where
  policyAtCall : P
  action : A
deriving DecidableEq

/-- Two-argument storage constructor (scope.hpp lines 305-310): constructs
the payload, then calls release() on the companion guard.  Returns the new
cell together with the companion guard's post-release state. -/
def storage.construct_with_guard {T P A : Type} [ExitPolicy P]
    (t : T) (guard : basic_scope_guard P A) :
    storage T × basic_scope_guard P A :=
  ({ m_value := t }, { guard with policy := ExitPolicy.release guard.policy })

/-- Destructor of basic_scope_guard (scope.hpp lines 414-420): if
should_execute() holds at the given probe reading, the stored function is
invoked once; the policy subobject is not modified first, so the recorded
snapshot is the guard's own policy. -/
def basic_scope_guard.destruct {P A : Type} [ExitPolicy P]
    (g : basic_scope_guard P A) (probe : Int) : List (GuardCall P A) :=
  if ExitPolicy.should_execute g.policy probe then
    [{ policyAtCall := g.policy, action := g.m_function.ref }]
  else
    []

/-- Move constructor of basic_scope_guard (scope.hpp lines 406-412): the
ExitPolicy base is copy-constructed from other, then the function cell is
constructed from other's function with other itself as the companion guard,
so other is released once the cell is built.  Returns the new guard and
other's final state. -/
def basic_scope_guard.move_construct {P A : Type} [ExitPolicy P]
    (other : basic_scope_guard P A) :
    basic_scope_guard P A × basic_scope_guard P A :=
  let pol := other.policy
  let pr := storage.construct_with_guard other.m_function.ref other
  ({ policy := pol, m_function := pr.1 }, pr.2)

/-- release() of the guard, inherited from the policy. -/
def basic_scope_guard.release {P A : Type} [ExitPolicy P]
    (g : basic_scope_guard P A) : basic_scope_guard P A :=
  { g with policy := ExitPolicy.release g.policy }

/-- make_scope_exit (scope.hpp lines 938-945): a guard with a fresh
on_exit_policy. -/
def make_scope_exit {A : Type} (fn : A) :
    basic_scope_guard on_exit_policy A :=
  { policy := on_exit_policy.init, m_function := { m_value := fn } }

/-- make_scope_success (scope.hpp lines 947-954): a guard whose
on_success_policy captures the probe reading at construction. -/
def make_scope_success {A : Type} (fn : A) (probe : Int) :
    basic_scope_guard on_success_policy A :=
  { policy := on_success_policy.init probe, m_function := { m_value := fn } }

/-- make_scope_fail (scope.hpp lines 956-963): a guard whose
on_fail_policy captures the probe reading at construction. -/
def make_scope_fail {A : Type} (fn : A) (probe : Int) :
    basic_scope_guard on_fail_policy A :=
  { policy := on_fail_policy.init probe, m_function := { m_value := fn } }

/-! ## unique_resource (scope.hpp lines 708-870 and 973-1163) -/

/-- State of unique_resource: the resource cell, the deleter cell, and the
m_execute_on_destruction flag. -/
structure unique_resource (R : Type) (D : Type) where
  m_resource : storage R
  m_deleter : storage D
  m_execute_on_destruction : Bool
deriving DecidableEq

/-- Record of one deleter invocation: a snapshot of the owning
unique_resource at the moment the call begins, the deleter value invoked,
and the resource value passed to it. -/
structure DeleterCall (R : Type) (D : Type) where
  ownerAtCall : unique_resource R D
  deleterUsed : D
  arg : R
deriving DecidableEq

/-- Private three-argument constructor (scope.hpp lines 1110-1125): stores
the resource and the deleter and sets the flag.  The two staged scope_exit
guards it creates are released as soon as each cell is constructed and
never fire on this non-throwing path. -/
def unique_resource.construct {R D : Type} (r : R) (d : D)
    (execute_on_destruction : Bool) : unique_resource R D :=
  { m_resource := { m_value := r }
    m_deleter := { m_value := d }
    m_execute_on_destruction := execute_on_destruction }

/-- Public two-argument constructor / make_unique_resource
(scope.hpp lines 973-981 and 1192-1206): delegates with the flag true. -/
def make_unique_resource {R D : Type} (r : R) (d : D) : unique_resource R D :=
  unique_resource.construct r d true

/-- make_unique_resource_checked (scope.hpp lines 1173-1190): the flag is
the negation of resource == invalid. -/
def make_unique_resource_checked {R D : Type} [DecidableEq R]
    (resource : R) (invalid : R) (d : D) : unique_resource R D :=
  unique_resource.construct resource d (! decide (resource = invalid))

/-- release() (scope.hpp lines 1060-1065): clears the flag, deleting
nothing. -/
def unique_resource.release {R D : Type} (x : unique_resource R D) :
    unique_resource R D :=
  { x with m_execute_on_destruction := false }

/-- get() (scope.hpp lines 1071-1077). -/
def unique_resource.get {R D : Type} (x : unique_resource R D) : R :=
  x.m_resource.ref

/-- get_deleter() (scope.hpp lines 1079-1085). -/
def unique_resource.get_deleter {R D : Type} (x : unique_resource R D) : D :=
  x.m_deleter.ref

/-- reset() (scope.hpp lines 1032-1042): when the flag is set, it is
cleared first and only then is the stored deleter invoked once with the
stored resource; the recorded owner snapshot is therefore the
already-disarmed state.  When the flag is clear, nothing happens. -/
def unique_resource.reset {R D : Type} (x : unique_resource R D) :
    unique_resource R D × List (DeleterCall R D) :=
  if x.m_execute_on_destruction then
    let x1 := { x with m_execute_on_destruction := false }
    (x1, [{ ownerAtCall := x1, deleterUsed := x1.m_deleter.ref,
            arg := x1.m_resource.ref }])
  else
    (x, [])

/-- Destructor (scope.hpp lines 1002-1006): calls reset(). -/
def unique_resource.destruct {R D : Type} (x : unique_resource R D) :
    unique_resource R D × List (DeleterCall R D) :=
  x.reset

/-- reset(r) (scope.hpp lines 1044-1057), non-throwing path: a scope_fail
guard deleting r is staged (it never fires when no step below throws), then
reset() runs on the old value, then the resource cell is set to r, then the
flag is set.  The deleter calls are exactly those made by the inner
reset(). -/
def unique_resource.reset_with {R D : Type} (x : unique_resource R D)
    (r : R) : unique_resource R D × List (DeleterCall R D) :=
  let p := x.reset
  let q1 := { p.1 with m_resource := p.1.m_resource.set r }
  let q2 := { q1 with m_execute_on_destruction := true }
  (q2, p.2)

/-- reset(r) when the assignment m_resource.set(r) throws: reset() has
already run on the old value, the staged scope_fail guard fires and cleans
up the replacement r with the stored deleter, and the flag is never set
again.  The owner snapshot at the cleanup call is the post-reset state. -/
def unique_resource.reset_with_adoption_failure {R D : Type}
    (x : unique_resource R D) (r : R) :
    unique_resource R D × List (DeleterCall R D) :=
  let p := x.reset
  (p.1, p.2 ++ [{ ownerAtCall := p.1, deleterUsed := p.1.m_deleter.ref,
                  arg := r }])

/-- Observable outcomes of the unique_resource move constructor: either it
completes with the source's final state, the new object, and the deleter
invocations made, or an exception propagates out of one of the two cell
constructions, leaving only the source and the invocations made by the
fired companion guard. -/
inductive move_outcome (R : Type) (D : Type) where
  | ok (src : unique_resource R D) (dst : unique_resource R D)
       (calls : List R)
  | threw (src : unique_resource R D) (calls : List R)
deriving DecidableEq

/-- Number of objects that consider themselves armed at the observable
point described by the outcome (the destination does not exist in the
threw cases). -/
def move_outcome.armed_count {R D : Type} : move_outcome R D → Nat
  | .ok src dst _ =>
      (if src.m_execute_on_destruction then 1 else 0) +
      (if dst.m_execute_on_destruction then 1 else 0)
  | .threw src _ =>
      if src.m_execute_on_destruction then 1 else 0

/-- Move constructor (scope.hpp lines 983-999).  The resource cell is
constructed from other's resource with an empty scope_exit companion (a
no-op if it fires); the deleter cell is constructed from other's deleter
with a companion guard that, if it fires, invokes the in-flight deleter
value on the already-moved resource and releases other, but only when other
is still armed; the flag is then copied from other and, in the body, other's
flag is cleared.  The two boolean parameters select whether the respective
cell construction throws, the only two points at which unwinding can escape
mid-move. -/
def unique_resource.move_construct {R D : Type} (a : unique_resource R D)
    (res_ctor_throws : Bool) (del_ctor_throws : Bool) : move_outcome R D :=
  if res_ctor_throws then
    move_outcome.threw a []
  else if del_ctor_throws then
    if a.m_execute_on_destruction then
      move_outcome.threw a.release [a.m_resource.ref]
    else
      move_outcome.threw a []
  else
    move_outcome.ok { a with m_execute_on_destruction := false }
      { m_resource := a.m_resource
        m_deleter := a.m_deleter
        m_execute_on_destruction := a.m_execute_on_destruction }
      []

/-- do_assign (scope.hpp lines 1129-1163): all four overloads assign the
two cells of other into this, by move or by copy, which coincide over this
value model; no deleter is invoked.  The source spells the accesses
other.resource and other.deleter, which name no members of unique_resource;
they are modelled as the evident fields m_resource and m_deleter. -/
def unique_resource.do_assign {R D : Type} (self other : unique_resource R D) :
    unique_resource R D :=
  { self with m_resource := other.m_resource, m_deleter := other.m_deleter }

/-- Move assignment (scope.hpp lines 1010-1026): if the two addresses are
equal, return at once; otherwise do_assign the cells, copy other's flag
into this, and clear other's flag.  Returns the assignee's final state,
the source's final state, and the deleter invocations performed (there are
none on any path). -/
def unique_resource.operator_move_assign {R D : Type}
    (self other : unique_resource R D) (same_object : Bool) :
    unique_resource R D × unique_resource R D × List (DeleterCall R D) :=
  if same_object then
    (self, other, [])
  else
    let self1 := self.do_assign other
    let self2 := { self1 with
                   m_execute_on_destruction := other.m_execute_on_destruction }
    let other1 := { other with m_execute_on_destruction := false }
    (self2, other1, [])

/-! ## Claim theorems -/

/-- Claim C3: for each of the three exit policies, once release() has been
called, should_execute() returns false for every subsequent probe reading
in the non-negative representable range of the counter type, and it stays
false after any further release() calls. -/
theorem claim_C3 (p : on_exit_policy) (q : on_fail_policy)
    (s : on_success_policy) (c : Int) (h0 : 0 ≤ c) (h1 : c ≤ intMax) :
    (p.release.should_execute c = false ∧
      ∀ n : Nat, (on_exit_policy.release^[n] p.release).should_execute c
        = false) ∧
    (q.release.should_execute c = false ∧
      ∀ n : Nat, (on_fail_policy.release^[n] q.release).should_execute c
        = false) ∧
    (s.release.should_execute c = false ∧
      ∀ n : Nat, (on_success_policy.release^[n] s.release).should_execute c
        = false) := by
  have hp : p.release.should_execute c = false := rfl
  have hq : q.release.should_execute c = false := by
    simp only [on_fail_policy.release, on_fail_policy.should_execute,
      decide_eq_false_iff_not, not_lt]
    exact h1
  have hs : s.release.should_execute c = false := by
    simp only [on_success_policy.release, on_success_policy.should_execute,
      decide_eq_false_iff_not]
    omega
  refine ⟨⟨hp, fun n => ?_⟩, ⟨hq, fun n => ?_⟩, ⟨hs, fun n => ?_⟩⟩
  · rw [Function.iterate_fixed rfl]
    exact hp
  · rw [Function.iterate_fixed rfl]
    exact hq
  · rw [Function.iterate_fixed rfl]
    exact hs

/-- Witness for claim C3 at the probe reading 0 and freshly constructed
policies. -/
theorem claim_C3_witness :
    (0:Int) ≤ 0 ∧ (0:Int) ≤ intMax ∧
    (on_fail_policy.init 0).release.should_execute 0 = false :=
  ⟨le_refl 0, by norm_num [intMax],
   ((claim_C3 on_exit_policy.init (on_fail_policy.init 0)
      (on_success_policy.init 0) 0 (le_refl 0)
      (by norm_num [intMax])).2.1).1⟩

/-- Claim C5: a guard constructed by each of the three factories and
destroyed at normal scope end (the probe reading equals the construction
baseline and release() was never called) runs its action exactly once for
scope_exit and scope_success and not at all for scope_fail. -/
theorem claim_C5 {A : Type} (fn : A) (n : Int) :
    ((make_scope_exit fn).destruct n).map GuardCall.action = [fn] ∧
    ((make_scope_success fn n).destruct n).map GuardCall.action = [fn] ∧
    ((make_scope_fail fn n).destruct n).map GuardCall.action = [] := by
  refine ⟨?_, ?_, ?_⟩ <;>
    simp [make_scope_exit, make_scope_success, make_scope_fail,
      basic_scope_guard.destruct, ExitPolicy.should_execute,
      instExitPolicyOnExit, instExitPolicyOnFail, instExitPolicyOnSuccess,
      on_exit_policy.should_execute, on_fail_policy.should_execute,
      on_success_policy.should_execute, on_exit_policy.init,
      on_fail_policy.init, on_success_policy.init, storage.ref]

/-- Claim C6: reset() on an armed instance first clears the armed flag and
only then invokes the stored deleter, exactly once, with the currently
stored resource — the owner snapshot recorded at the call is already
disarmed; on a disarmed instance the deleter is not invoked and the stored
resource and deleter are unchanged. -/
theorem claim_C6 {R D : Type} (x : unique_resource R D) :
    (x.m_execute_on_destruction = true →
      x.reset = ({ x with m_execute_on_destruction := false },
        [{ ownerAtCall := { x with m_execute_on_destruction := false },
           deleterUsed := x.m_deleter.ref,
           arg := x.m_resource.ref }])) ∧
    (x.m_execute_on_destruction = false →
      x.reset = (x, [])) := by
  constructor <;> intro h <;> simp [unique_resource.reset, h]

/-- Witness for claim C6 on a concrete armed and a concrete disarmed
instance. -/
theorem claim_C6_witness :
    ((unique_resource.construct 3 9 true).reset
        = (unique_resource.construct 3 9 false,
           [{ ownerAtCall := unique_resource.construct 3 9 false,
              deleterUsed := 9, arg := 3 }])) ∧
    ((unique_resource.construct 3 9 false).reset
        = (unique_resource.construct 3 9 false, [])) :=
  ⟨(claim_C6 (unique_resource.construct 3 9 true)).1 rfl,
   (claim_C6 (unique_resource.construct 3 9 false)).2 rfl⟩

/-- Claim C10: move-assigning a unique_resource to itself takes the
address-equality early return, leaving the armed flag, the stored
resource, and the stored deleter unchanged, invoking no deleter, and
returning the object itself. -/
theorem claim_C10 {R D : Type} (x : unique_resource R D) :
    x.operator_move_assign x true = (x, x, []) ∧
    (x.operator_move_assign x true).1.m_execute_on_destruction
        = x.m_execute_on_destruction ∧
    (x.operator_move_assign x true).1.m_resource = x.m_resource ∧
    (x.operator_move_assign x true).1.m_deleter = x.m_deleter ∧
    (x.operator_move_assign x true).2.2 = [] := by
  simp [unique_resource.operator_move_assign]

/-- Claim C1 as stated fails on the code: the scope-guard destructor does
not disarm before invoking the action.  Destroying an armed scope_exit
guard records an invocation whose policy snapshot still reports
should-execute. -/
theorem claim_C1_counterexample :
    ¬ (∀ c ∈ (make_scope_exit (0:Nat)).destruct 0,
          c.policyAtCall.m_should_execute = false) := by
  decide

/-- Claim C1 (amended): on the unique_resource paths — reset(), reset(r),
and destruction — the armed flag is cleared strictly before the deleter
invocation begins: every recorded owner snapshot is disarmed, so a
re-entrant reset() issued from inside the deleter invokes nothing; the
scope-guard destructor, by contrast, invokes the action with its policy
subobject unchanged, still reporting its pre-destruction armed state. -/
theorem claim_C1_amended {R D A : Type} (x : unique_resource R D) (r : R)
    (g : basic_scope_guard on_exit_policy A) (probe : Int) :
    (∀ c ∈ x.reset.2, c.ownerAtCall.m_execute_on_destruction = false ∧
        c.ownerAtCall.reset = (c.ownerAtCall, [])) ∧
    (∀ c ∈ (x.reset_with r).2,
        c.ownerAtCall.m_execute_on_destruction = false ∧
        c.ownerAtCall.reset = (c.ownerAtCall, [])) ∧
    (∀ c ∈ x.destruct.2, c.ownerAtCall.m_execute_on_destruction = false) ∧
    (∀ c ∈ g.destruct probe, c.policyAtCall = g.policy ∧
        c.policyAtCall.m_should_execute = g.policy.m_should_execute) := by
  have key : ∀ c ∈ x.reset.2,
      c.ownerAtCall.m_execute_on_destruction = false ∧
      c.ownerAtCall.reset = (c.ownerAtCall, []) := by
    intro c hc
    by_cases h : x.m_execute_on_destruction
    · simp only [unique_resource.reset, h, if_true, List.mem_singleton] at hc
      subst hc
      exact ⟨rfl, by simp [unique_resource.reset]⟩
    · simp [unique_resource.reset, h] at hc
  refine ⟨key, ?_, ?_, ?_⟩
  · intro c hc
    exact key c hc
  · intro c hc
    exact (key c hc).1
  · intro c hc
    by_cases h : ExitPolicy.should_execute g.policy probe
    · simp only [basic_scope_guard.destruct, h, if_true,
        List.mem_singleton] at hc
      subst hc
      exact ⟨rfl, rfl⟩
    · simp [basic_scope_guard.destruct, h] at hc

/-- Witness for claim C1 (amended): the single deleter call made by
resetting an armed instance holding 5 carries an already-disarmed owner
snapshot. -/
theorem claim_C1_amended_witness :
    ({ ownerAtCall := unique_resource.construct 5 0 false, deleterUsed := 0,
       arg := 5 } : DeleterCall Nat Nat).ownerAtCall.m_execute_on_destruction
      = false :=
  ((claim_C1_amended (unique_resource.construct 5 0 true) 7
      (make_scope_exit 0) 0).1
    { ownerAtCall := unique_resource.construct 5 0 false, deleterUsed := 0,
      arg := 5 } (by decide)).1

/-- Claim C2 as stated fails on the code: move-assigning an armed assignee
holding resource 10 (deleter 0) from a disarmed source holding 20, the
assignee's old resource is never passed to its deleter, and afterwards
neither object is armed — not exactly one of the two. -/
theorem claim_C2_counterexample :
    ¬ ((∃ c ∈ ((unique_resource.construct 10 0 true).operator_move_assign
            (unique_resource.construct 20 0 false) false).2.2,
          c.arg = 10 ∧ c.deleterUsed = 0) ∧
       ((if ((unique_resource.construct 10 0 true).operator_move_assign
              (unique_resource.construct 20 0 false)
              false).1.m_execute_on_destruction
         then (1:Nat) else 0) +
        (if ((unique_resource.construct 10 0 true).operator_move_assign
              (unique_resource.construct 20 0 false)
              false).2.1.m_execute_on_destruction
         then (1:Nat) else 0) = 1)) := by
  decide

/-- Claim C2 (amended): move-assignment from a distinct source overwrites
the assignee's resource and deleter cells with the source's, copies the
source's armed flag onto the assignee, and clears the source's flag; no
deleter is invoked on any path, so the assignee's previous resource is not
deleted; afterwards the source is disarmed and the assignee is armed
exactly when the source was, hence at most one — not always exactly one —
of the two is armed. -/
theorem claim_C2_amended {R D : Type} (self other : unique_resource R D) :
    (self.operator_move_assign other false).1
       = { m_resource := other.m_resource, m_deleter := other.m_deleter,
           m_execute_on_destruction := other.m_execute_on_destruction } ∧
    (self.operator_move_assign other false).2.1 = other.release ∧
    (self.operator_move_assign other false).2.2 = [] ∧
    ¬ ((self.operator_move_assign other false).1.m_execute_on_destruction
          = true ∧
       (self.operator_move_assign other false).2.1.m_execute_on_destruction
          = true) := by
  refine ⟨rfl, rfl, rfl, ?_⟩
  rintro ⟨-, h2⟩
  simp [unique_resource.operator_move_assign, unique_resource.release] at h2

/-- Claim C4: move-constructing from an armed unique_resource transfers
both cells and the armed flag to the destination and disarms the source;
destroying the moved-from source then invokes the deleter zero times while
destroying the destination invokes it exactly once with the transferred
resource; and at every observable point of the transfer — completion, or
either of the two possible unwinding exits mid-move — at most one of the
two objects is armed. -/
theorem claim_C4 {R D : Type} (a : unique_resource R D)
    (h : a.m_execute_on_destruction = true) :
    a.move_construct false false
      = move_outcome.ok a.release
          { m_resource := a.m_resource, m_deleter := a.m_deleter,
            m_execute_on_destruction := true } [] ∧
    a.release.destruct.2 = [] ∧
    ({ m_resource := a.m_resource, m_deleter := a.m_deleter,
       m_execute_on_destruction := true } :
         unique_resource R D).destruct.2.map DeleterCall.arg
      = [a.m_resource.ref] ∧
    (∀ fr fd : Bool, (a.move_construct fr fd).armed_count ≤ 1) := by
  refine ⟨?_, ?_, ?_, ?_⟩
  · simp [unique_resource.move_construct, unique_resource.release, h]
  · simp [unique_resource.destruct, unique_resource.reset,
      unique_resource.release]
  · simp [unique_resource.destruct, unique_resource.reset]
  · intro fr fd
    cases fr <;> cases fd <;>
      simp [unique_resource.move_construct, move_outcome.armed_count,
        unique_resource.release, h]

/-- Witness for claim C4 on a concrete armed instance holding 4 with
deleter 7. -/
theorem claim_C4_witness :
    (unique_resource.construct 4 7 true).move_construct false false
      = move_outcome.ok (unique_resource.construct 4 7 false)
          (unique_resource.construct 4 7 true) [] :=
  (claim_C4 (unique_resource.construct 4 7 true) rfl).1

/-- Claim C7: on an armed unique_resource holding r with deleter d,
reset(r2) invokes d exactly once with r before returning — at that call
the owner snapshot is already disarmed and still stores r, so the old
resource is deleted before the new one is adopted — and leaves the
instance armed holding r2 with deleter d; subsequent destruction then
invokes d exactly once with r2, for two invocations in total, in order,
on distinct values; if adoption of the replacement fails instead, the
replacement r2 is cleaned up with d after the old r was deleted and the
instance is left disarmed. -/
theorem claim_C7 {R D : Type} (r r2 : R) (d : D) (hne : r ≠ r2) :
    ((make_unique_resource r d).reset_with r2).2.map DeleterCall.arg
        = [r] ∧
    (∀ c ∈ ((make_unique_resource r d).reset_with r2).2,
        c.deleterUsed = d ∧ c.ownerAtCall.m_resource.ref = r ∧
        c.ownerAtCall.m_execute_on_destruction = false) ∧
    ((make_unique_resource r d).reset_with r2).1
        = unique_resource.construct r2 d true ∧
    (((make_unique_resource r d).reset_with r2).1.destruct.2.map
        DeleterCall.arg = [r2]) ∧
    ((((make_unique_resource r d).reset_with r2).2 ++
        ((make_unique_resource r d).reset_with r2).1.destruct.2).map
          DeleterCall.arg = [r, r2]) ∧
    r ≠ r2 ∧
    (((make_unique_resource r d).reset_with_adoption_failure r2).2.map
        DeleterCall.arg = [r, r2]) ∧
    ((make_unique_resource r d).reset_with_adoption_failure r2).1
        = unique_resource.construct r d false := by
  refine ⟨?_, ?_, ?_, ?_, ?_, hne, ?_, ?_⟩ <;>
    simp [make_unique_resource, unique_resource.construct,
      unique_resource.reset_with, unique_resource.reset,
      unique_resource.destruct, unique_resource.reset_with_adoption_failure,
      storage.ref, storage.set]

/-- Witness for claim C7 at r = 1, r2 = 2, d = 0. -/
theorem claim_C7_witness :
    (1:Nat) ≠ 2 ∧
    ((make_unique_resource (1:Nat) (0:Nat)).reset_with 2).2.map
        DeleterCall.arg = [1] :=
  ⟨by decide, (claim_C7 1 2 0 (by decide)).1⟩

/-- Claim C8: make_unique_resource_checked arms the result exactly when
the resource differs from the invalid sentinel; at scope end a
sentinel-equal resource is never passed to the deleter, while a differing
resource is passed to d exactly once. -/
theorem claim_C8 {R D : Type} [DecidableEq R] (resource invalid : R)
    (d : D) :
    ((make_unique_resource_checked resource invalid d).m_execute_on_destruction
        = true ↔ resource ≠ invalid) ∧
    (resource = invalid →
       (make_unique_resource_checked resource invalid d).destruct.2 = []) ∧
    (resource ≠ invalid →
       ((make_unique_resource_checked resource invalid d).destruct.2.map
           DeleterCall.arg = [resource] ∧
        ∀ c ∈ (make_unique_resource_checked resource invalid d).destruct.2,
            c.deleterUsed = d)) := by
  by_cases h : resource = invalid <;>
    simp [make_unique_resource_checked, unique_resource.construct,
      unique_resource.destruct, unique_resource.reset, storage.ref, h]

/-- Witness for claim C8 with sentinel 0: resource 0 yields a disarmed
instance whose destruction deletes nothing, resource 1 yields one whose
destruction deletes 1. -/
theorem claim_C8_witness :
    ((0:Nat) = 0 ∧
      (make_unique_resource_checked (0:Nat) 0 (5:Nat)).destruct.2 = []) ∧
    ((1:Nat) ≠ 0 ∧
      (make_unique_resource_checked (1:Nat) 0 (5:Nat)).destruct.2.map
        DeleterCall.arg = [1]) :=
  ⟨⟨rfl, (claim_C8 0 0 5).2.1 rfl⟩,
   ⟨by decide, ((claim_C8 1 0 5).2.2 (by decide)).1⟩⟩

/-- Claim C9: move-constructing a scope guard of each of the three kinds
copies the exit-policy state and the stored action cell into the new guard
and releases the moved-from guard once the action cell is built; the
moved-from guard's destruction at any representable probe reading runs
nothing, and between the two guards the action fires at most once.  (Copy
construction and copy/move assignment are deleted in the source at the
type level, scope.hpp lines 422-424, so no embedded operation corresponds
to them.) -/
theorem claim_C9 {A : Type} (e : basic_scope_guard on_exit_policy A)
    (f : basic_scope_guard on_fail_policy A)
    (s : basic_scope_guard on_success_policy A)
    (c : Int) (h0 : 0 ≤ c) (h1 : c ≤ intMax) :
    (e.move_construct
        = ({ policy := e.policy, m_function := e.m_function }, e.release) ∧
      e.move_construct.2.destruct c = [] ∧
      (e.move_construct.1.destruct c).length +
        (e.move_construct.2.destruct c).length ≤ 1) ∧
    (f.move_construct
        = ({ policy := f.policy, m_function := f.m_function }, f.release) ∧
      f.move_construct.2.destruct c = [] ∧
      (f.move_construct.1.destruct c).length +
        (f.move_construct.2.destruct c).length ≤ 1) ∧
    (s.move_construct
        = ({ policy := s.policy, m_function := s.m_function }, s.release) ∧
      s.move_construct.2.destruct c = [] ∧
      (s.move_construct.1.destruct c).length +
        (s.move_construct.2.destruct c).length ≤ 1) := by
  have he : e.move_construct.2.destruct c = [] := by
    simp [basic_scope_guard.move_construct, storage.construct_with_guard,
      basic_scope_guard.destruct, ExitPolicy.should_execute,
      ExitPolicy.release, instExitPolicyOnExit, on_exit_policy.release,
      on_exit_policy.should_execute]
  have hf : f.move_construct.2.destruct c = [] := by
    simp only [basic_scope_guard.move_construct,
      storage.construct_with_guard, basic_scope_guard.destruct,
      ExitPolicy.should_execute, ExitPolicy.release, instExitPolicyOnFail,
      on_fail_policy.release, on_fail_policy.should_execute,
      decide_eq_true_eq, ite_eq_right_iff]
    intro hlt
    exact absurd h1 (not_le.mpr hlt)
  have hs : s.move_construct.2.destruct c = [] := by
    simp only [basic_scope_guard.move_construct,
      storage.construct_with_guard, basic_scope_guard.destruct,
      ExitPolicy.should_execute, ExitPolicy.release, instExitPolicyOnSuccess,
      on_success_policy.release, on_success_policy.should_execute,
      decide_eq_true_eq, ite_eq_right_iff]
    intro heq
    omega
  have hlen : ∀ {P : Type} [inst : ExitPolicy P]
      (g : basic_scope_guard P A), (g.destruct c).length ≤ 1 := by
    intro P inst g
    by_cases hx : ExitPolicy.should_execute g.policy c <;>
      simp [basic_scope_guard.destruct, hx]
  refine ⟨⟨rfl, he, ?_⟩, ⟨rfl, hf, ?_⟩, ⟨rfl, hs, ?_⟩⟩
  · rw [he]
    simpa using hlen e.move_construct.1
  · rw [hf]
    simpa using hlen f.move_construct.1
  · rw [hs]
    simpa using hlen s.move_construct.1

/-- Witness for claim C9 at concrete guards and the probe reading 0. -/
theorem claim_C9_witness :
    (0:Int) ≤ 0 ∧ (0:Int) ≤ intMax ∧
    (make_scope_fail (0:Nat) 0).move_construct.2.destruct 0 = [] :=
  ⟨le_refl 0, by norm_num [intMax],
   ((claim_C9 (make_scope_exit (0:Nat)) (make_scope_fail 0 0)
      (make_scope_success 0 0) 0 (le_refl 0)
      (by norm_num [intMax])).2.1).2.1⟩

end Scope
